import Mathlib

/-!
Verification of the MindLab Health backend (RBAC + auth core).

Shallow embedding of the data model (`src/models.py`), the password /
token functions (`src/auth.py`), the authorization helpers
(`src/rbac_decorators.py`) and the request handlers of
`src/07_main_fixed4.py` that the spec's testable properties talk about.

Machine-level conventions: database rows are Lean structures mirroring
the declared SQLAlchemy columns; a database session is a `Db` record of
row lists; timestamps are `Nat`; raising `HTTPException` is returning
`Except.error`; handlers return the resulting session state explicitly.
External primitives (bcrypt, the JWT library, the Google-calendar
collaborator) are modelled as ideal functional counterparts, with a doc
comment saying so.
-/

namespace Mindlab

/-! ## External primitive: bcrypt (modelled) -/

/-- Modelled from the spec: the external bcrypt primitive (library
`bcrypt`, not part of this repository).  A well-formed bcrypt hash is
idealized as the salt together with the exact byte string that was
hashed; `checkpw` recomputes and compares. -/
structure BcryptHash where
  salt : Nat
  pw : List Nat
deriving DecidableEq

/-- A stored password hash string: either a well-formed bcrypt hash or
an arbitrary malformed string (e.g. a value that never came from
`bcrypt.hashpw`). -/
abbrev StoredHash := Sum BcryptHash String

/-- Modelled from the spec: `bcrypt.hashpw(password_bytes, salt)`. -/
def bcrypt_hashpw (pw : List Nat) (salt : Nat) : StoredHash :=
  Sum.inl ⟨salt, pw⟩

/-- Modelled from the spec: `bcrypt.checkpw(password_bytes, hash_bytes)`;
raises (`Except.error`) on a malformed hash, as the real primitive
raises `ValueError: Invalid salt`. -/
def bcrypt_checkpw (pw : List Nat) (h : StoredHash) : Except String Bool :=
  match h with
  | Sum.inl bh => Except.ok (decide (bh.pw = pw))
  | Sum.inr _ => Except.error "Invalid salt"

/-! ## UTF-8 encoding (Python's `str.encode` as used by auth.py) -/

/-- Standard UTF-8 encoding of a single code point. -/
def utf8EncodeChar (c : Char) : List Nat :=
  let n := c.toNat
  if n < 0x80 then [n]
  else if n < 0x800 then [0xC0 + n / 0x40, 0x80 + n % 0x40]
  else if n < 0x10000 then
    [0xE0 + n / 0x1000, 0x80 + (n / 0x40) % 0x40, 0x80 + n % 0x40]
  else
    [0xF0 + n / 0x40000, 0x80 + (n / 0x1000) % 0x40,
     0x80 + (n / 0x40) % 0x40, 0x80 + n % 0x40]

/-- `password.encode('utf-8')` as a byte list. -/
def encodeUtf8 (s : String) : List Nat :=
  s.data.flatMap utf8EncodeChar

/-! ## auth.py: password hashing and verification -/

/-- The 72-byte truncation both `verify_password` and
`get_password_hash` perform (`if len(password_bytes) > 72:
password_bytes = password_bytes[:72]`). -/
def truncate72 (l : List Nat) : List Nat :=
  if l.length > 72 then l.take 72 else l

/-- `auth.verify_password` on the already-encoded byte string: truncate,
call `bcrypt.checkpw`, and catch every exception, returning `false`. -/
def verify_password_bytes (password_bytes : List Nat) (h : StoredHash) : Bool :=
  match bcrypt_checkpw (truncate72 password_bytes) h with
  | Except.ok b => b
  | Except.error _ => false

/-- `auth.verify_password(plain_password, hashed_password)`. -/
def verify_password (plain_password : String) (h : StoredHash) : Bool :=
  verify_password_bytes (encodeUtf8 plain_password) h

/-- `auth.get_password_hash` on the already-encoded byte string:
truncate to 72 bytes, then `bcrypt.hashpw` with a fresh salt (the salt
drawn by `bcrypt.gensalt()` is passed explicitly). -/
def get_password_hash_bytes (password_bytes : List Nat) (salt : Nat) : StoredHash :=
  bcrypt_hashpw (truncate72 password_bytes) salt

/-- `auth.get_password_hash(password)`. -/
def get_password_hash (password : String) (salt : Nat) : StoredHash :=
  get_password_hash_bytes (encodeUtf8 password) salt

/-! ## auth.py: validation functions -/

/-- `auth.validate_password_strength(password) -> (is_valid, message)`. -/
def validate_password_strength (password : String) : Bool × String :=
  if password.length < 8 then
    (false, "Password must be at least 8 characters long")
  else if password.length > 72 then
    (false, "Password must not exceed 72 characters")
  else if !(password.data.any Char.isUpper && password.data.any Char.isLower &&
              password.data.any Char.isDigit) then
    (false, "Password must contain uppercase, lowercase, and numbers")
  else
    (true, "")

/-- `auth.validate_username(username) -> (is_valid, message)`.  (The
`username[0]` access is only reached once `len(username) >= 3`, so the
empty-list arm below is unreachable.) -/
def validate_username (username : String) : Bool × String :=
  if username.length < 3 then
    (false, "Username must be at least 3 characters long")
  else if username.length > 50 then
    (false, "Username must not exceed 50 characters")
  else
    match username.data with
    | [] => (true, "")
    | c :: _ =>
      if !c.isAlpha then
        (false, "Username must start with a letter")
      else if !(username.data.all fun ch => ch.isAlphanum || ch = '_' || ch = '-') then
        (false, "Username can only contain letters, numbers, underscore, and hyphen")
      else
        (true, "")

/-- Python truthiness of a pair: a non-empty tuple is always truthy, so
`if not t:` on a 2-tuple `t` never takes the branch.  (`register_user`
tests `if not validate_username(user.username):` against the *pair*
returned by `validate_username`, not its boolean component.) -/
def pyTruthyPair {α β : Type} (_t : α × β) : Bool :=
  true

/-! ## models.py: data model -/

/-- `models.Permission` (declared columns used by the RBAC logic). -/
structure Permission where
  id : Nat
  name : String
  module : String
  action : String
deriving DecidableEq

/-- `models.RolePermission` join row. -/
structure RolePermission where
  role : String
  permission_id : Nat
deriving DecidableEq

/-- `models.User` (the declared columns: id, username, email,
hashed_password, role, created_at). -/
structure User where
  id : Nat
  username : String
  email : String
  hashed_password : StoredHash
  role : String
  created_at : Nat
deriving DecidableEq

/-- `models.Appointment` (declared columns). -/
structure Appointment where
  id : Nat
  user_id : Nat
  therapist_id : Nat
  appointment_datetime : Nat
  duration_minutes : Nat
  status : String
  notes : Option String
  google_calendar_event_id : Option String
  sync_with_calendar : Bool
  last_calendar_sync : Option Nat
  appointment_type : String
  location : Option String
deriving DecidableEq

/-- A database session: the tables the verified handlers touch. -/
structure Db where
  users : List User
  permissions : List Permission
  role_permissions : List RolePermission
  appointments : List Appointment
deriving DecidableEq

/-! ## models.py: permission resolver (`User.has_permission`) -/

/-- `User.has_permission(self, permission_name, db_session)`: admin
short-circuits to true; otherwise the join query
`query(Permission.id).join(RolePermission).filter(RolePermission.role ==
role, Permission.name == permission_name).first()` is non-empty. -/
def has_permission (u : User) (permission_name : String) (db : Db) : Bool :=
  if u.role = "admin" then
    true
  else
    db.permissions.any fun p =>
      p.name == permission_name &&
        db.role_permissions.any fun rp =>
          rp.role == u.role && rp.permission_id == p.id

/-! ## rbac_decorators.py: resource-ownership authorizer -/

/-- `rbac_decorators.can_access_appointment(current_user,
appointment_id, db)`: look the appointment up first (false when
missing, before the admin check), then admin, then patient/provider
ownership. -/
def can_access_appointment (current_user : User) (appointment_id : Nat) (db : Db) : Bool :=
  match db.appointments.find? (fun a => a.id == appointment_id) with
  | none => false
  | some appointment =>
    if current_user.role = "admin" then
      true
    else if appointment.user_id == current_user.id ||
              appointment.therapist_id == current_user.id then
      true
    else
      false

/-! ## auth.py: JWT tokens (external `jose.jwt` library, modelled) -/

/-- `auth.SECRET_KEY` (its default value; the env override is a
deployment concern). -/
def SECRET_KEY : String := "your-secret-key-here-change-in-production"

/-- `auth.ACCESS_TOKEN_EXPIRE_MINUTES`. -/
def ACCESS_TOKEN_EXPIRE_MINUTES : Nat := 30

/-- Modelled from the spec: a signed JWT as produced by the external
`jose.jwt.encode` — a tamper-evident record of the claims and the
signing key.  The claims `create_access_token` embeds are the caller's
payload (`sub`) plus the `exp` it adds. -/
structure JwtToken where
  sub : Option String
  exp : Nat
  key : String
deriving DecidableEq

/-- `auth.TokenData`. -/
structure TokenData where
  username : Option String
deriving DecidableEq

/-- `auth.create_access_token(data, expires_delta)`: expiry is `now +
expires_delta` when given, else `now + 30 minutes`; the token is signed
with `SECRET_KEY`.  Time is in seconds. -/
def create_access_token (data_sub : Option String) (now : Nat)
    (expires_delta : Option Nat) : JwtToken :=
  let expire :=
    match expires_delta with
    | some d => now + d
    | none => now + ACCESS_TOKEN_EXPIRE_MINUTES * 60
  { sub := data_sub, exp := expire, key := SECRET_KEY }

/-- `auth.decode_access_token(token)`: `jose.jwt.decode` raises
`JWTError` (caught, returning `none`) when the signature does not match
`SECRET_KEY` or the token is expired; `jose` treats a token as expired
iff `exp < now`.  A payload without `sub` also yields `none`. -/
def decode_access_token (token : JwtToken) (now : Nat) : Option TokenData :=
  if token.key ≠ SECRET_KEY then
    none
  else if token.exp < now then
    none
  else
    match token.sub with
    | none => none
    | some username => some { username := some username }

/-! ## Error taxonomy (HTTPException status codes of the handlers) -/

/-- The `HTTPException`s the verified handlers raise: 400 validation,
404 not-found, 403 forbidden, 401 unauthenticated. -/
inductive ApiError where
  | validation (msg : String)
  | notFound (msg : String)
  | forbidden (msg : String)
  | unauthenticated
deriving DecidableEq

/-- `auth.get_current_user(token)`: decode, reject (`401`) when the
token is invalid or carries no subject, then load the user row by
username, rejecting (`401`) when absent. -/
def get_current_user (token : JwtToken) (now : Nat) (db : Db) :
    Except ApiError User :=
  match decode_access_token token now with
  | none => Except.error ApiError.unauthenticated
  | some token_data =>
    match token_data.username with
    | none => Except.error ApiError.unauthenticated
    | some username =>
      match db.users.find? (fun u => u.username == username) with
      | none => Except.error ApiError.unauthenticated
      | some user => Except.ok user

/-! ## 07_main_fixed4.py: register_user -/

/-- `register_user(user, db)`.  `newId` models the autoincrement id the
store assigns, `salt` the salt `bcrypt.gensalt()` draws, `now` the
`created_at` default.  Note the first guard: the handler tests `if not
validate_username(user.username):` — the truthiness of the returned
*pair* — so the branch is never taken. -/
def register_user (username email password role : String)
    (newId salt now : Nat) (db : Db) : Except ApiError User × Db :=
  if pyTruthyPair (validate_username username) = false then
    (Except.error (ApiError.validation "Invalid username format"), db)
  else
    let v := validate_password_strength password
    if v.1 = false then
      (Except.error (ApiError.validation v.2), db)
    else if db.users.any (fun u => u.username == username || u.email == email) then
      (Except.error (ApiError.validation "Username or email already registered"), db)
    else
      let hashed_password := get_password_hash password salt
      let db_user : User :=
        { id := newId, username := username, email := email,
          hashed_password := hashed_password, role := role, created_at := now }
      (Except.ok db_user, { db with users := db.users ++ [db_user] })

/-! ## 07_main_fixed4.py: create_appointment -/

/-- The request body `AppointmentCreate`. -/
structure AppointmentCreate where
  therapist_id : Nat
  appointment_datetime : Nat
  duration_minutes : Nat
  appointment_type : String
  location : Option String
  notes : Option String
  sync_with_calendar : Bool
deriving DecidableEq

/-- The `calendar_data` dict `create_appointment` builds for the
calendar collaborator. -/
structure CalendarEventData where
  appointment_id : Nat
  appointment_datetime : Nat
  duration_minutes : Nat
  appointment_type : String
  location : Option String
  notes : Option String
  patient_name : String
  patient_email : Option String
  therapist_name : String
  therapist_email : Option String
deriving DecidableEq

/-- `create_appointment(appointment, current_user, db)`.  The external
calendar collaborator (`calendar_service.create_event`, modelled from
the spec as an arbitrary function that may raise) is passed in as
`cal_create`; `cal_enabled` is `calendar_service.enabled`.  A raise
from the collaborator is caught and logged; a `None` event id is
logged as a warning; either way the already-committed appointment row
stands, without an event id. -/
def create_appointment (req : AppointmentCreate) (current_user : User)
    (cal_enabled : Bool)
    (cal_create : CalendarEventData → Except String (Option String))
    (newId now : Nat) (db : Db) : Except ApiError Appointment × Db :=
  match db.users.find? (fun u => u.id == req.therapist_id && u.role == "therapist") with
  | none => (Except.error (ApiError.notFound "Therapist not found"), db)
  | some _ =>
    let db_appointment : Appointment :=
      { id := newId, user_id := current_user.id,
        therapist_id := req.therapist_id,
        appointment_datetime := req.appointment_datetime,
        duration_minutes := req.duration_minutes, status := "scheduled",
        notes := req.notes, google_calendar_event_id := none,
        sync_with_calendar := req.sync_with_calendar,
        last_calendar_sync := none,
        appointment_type := req.appointment_type, location := req.location }
    let db1 : Db := { db with appointments := db.appointments ++ [db_appointment] }
    if req.sync_with_calendar && cal_enabled then
      let patient := db1.users.find? (fun u => u.id == current_user.id)
      let therapist := db1.users.find? (fun u => u.id == req.therapist_id)
      let calendar_data : CalendarEventData :=
        { appointment_id := newId,
          appointment_datetime := req.appointment_datetime,
          duration_minutes := req.duration_minutes,
          appointment_type := req.appointment_type,
          location := req.location, notes := req.notes,
          patient_name := match patient with
            | some p => p.username
            | none => "Unknown",
          patient_email := match patient with
            | some p => some p.email
            | none => none,
          therapist_name := match therapist with
            | some t => t.username
            | none => "Unknown",
          therapist_email := match therapist with
            | some t => some t.email
            | none => none }
      match cal_create calendar_data with
      | Except.ok (some event_id) =>
        let updated : Appointment :=
          { db_appointment with google_calendar_event_id := some event_id,
                                last_calendar_sync := some now }
        (Except.ok updated, { db with appointments := db.appointments ++ [updated] })
      | Except.ok none => (Except.ok db_appointment, db1)
      | Except.error _ => (Except.ok db_appointment, db1)
    else
      (Except.ok db_appointment, db1)

/-! ## 07_main_fixed4.py: delete_appointment -/

/-- In-place mutation of the row `query(...).first()` returned: apply
`f` to the first element satisfying `p`, leaving the rest untouched. -/
def replaceFirst {α : Type} (p : α → Bool) (f : α → α) : List α → List α
  | [] => []
  | x :: xs => if p x then f x :: xs else x :: replaceFirst p f xs

/-- `delete_appointment(appointment_id, current_user, db)`: 404 when
missing, 403 unless the caller is the patient, the assigned provider or
an admin, otherwise set `status = "cancelled"` and commit — the row is
not removed. -/
def delete_appointment (appointment_id : Nat) (current_user : User)
    (db : Db) : Except ApiError String × Db :=
  match db.appointments.find? (fun a => a.id == appointment_id) with
  | none => (Except.error (ApiError.notFound "Appointment not found"), db)
  | some appointment =>
    if appointment.user_id != current_user.id &&
        appointment.therapist_id != current_user.id &&
        current_user.role != "admin" then
      (Except.error (ApiError.forbidden "Not authorized to delete this appointment"), db)
    else
      (Except.ok "Appointment cancelled successfully",
       { db with appointments :=
           (replaceFirst (fun a => a.id == appointment_id)
             (fun a => { a with status := "cancelled" }) db.appointments) })

/-! ## 07_main_fixed4.py: toggle_user_status -/

/-- `toggle_user_status(user_id, status_data, current_user, db)`:
admin-only, 404 when the target is missing, 400 on self-toggle or a
missing `is_active` field; then `user.is_active = new_status` assigns
an attribute the `User` model declares no column for, so `db.commit()`
persists nothing — every declared column of the stored row is
unchanged — and the handler still reports success. -/
def toggle_user_status (user_id : Nat) (is_active : Option Bool)
    (current_user : User) (db : Db) :
    Except ApiError (String × Nat × Bool) × Db :=
  if current_user.role ≠ "admin" then
    (Except.error (ApiError.forbidden "Only administrators can change user status"), db)
  else
    match db.users.find? (fun u => u.id == user_id) with
    | none => (Except.error (ApiError.notFound "User not found"), db)
    | some user =>
      if user.id = current_user.id then
        (Except.error (ApiError.validation "Cannot disable your own account"), db)
      else
        match is_active with
        | none => (Except.error (ApiError.validation "is_active field is required"), db)
        | some new_status =>
          let status_text := if new_status then "enabled" else "disabled"
          (Except.ok ("User " ++ status_text ++ " successfully", user_id, new_status), db)

/-! ## Helper lemmas -/

/-- Both password functions truncate exactly to the 72-byte prefix. -/
theorem truncate72_eq_take (l : List Nat) : truncate72 l = l.take 72 := by
  unfold truncate72
  split
  · rfl
  · next h => exact (List.take_of_length_le (by omega)).symm

/-- Mutating the row `find?` returned (as `replaceFirst` models it)
splits the table into an unchanged head, the mutated row, and an
unchanged tail. -/
theorem replaceFirst_of_find? {α : Type} (p : α → Bool) (f : α → α)
    (l : List α) (a : α) (h : l.find? p = some a) :
    ∃ l1 l2, l = l1 ++ a :: l2 ∧ replaceFirst p f l = l1 ++ f a :: l2 := by
  induction l with
  | nil => simp [List.find?] at h
  | cons x xs ih =>
    by_cases hx : p x = true
    · rw [List.find?_cons_of_pos _ hx] at h
      obtain rfl : x = a := Option.some.inj h
      exact ⟨[], xs, rfl, by simp [replaceFirst, hx]⟩
    · rw [List.find?_cons_of_neg _ hx] at h
      obtain ⟨l1, l2, h1, h2⟩ := ih h
      exact ⟨x :: l1, l2, by simp [h1], by simp [replaceFirst, hx, h2]⟩

/-- Characterization of the failure case of
`validate_password_strength`: exactly the enumerated strength rules. -/
theorem validate_password_strength_false_iff (pw : String) :
    (validate_password_strength pw).1 = false ↔
      (pw.length < 8 ∨ 72 < pw.length ∨
        pw.data.any Char.isUpper = false ∨
        pw.data.any Char.isLower = false ∨
        pw.data.any Char.isDigit = false) := by
  unfold validate_password_strength
  split_ifs with h1 h2 h3
  · exact iff_of_true rfl (Or.inl h1)
  · exact iff_of_true rfl (Or.inr (Or.inl h2))
  · refine iff_of_true rfl ?_
    have h3' : ¬(pw.data.any Char.isUpper = true ∧ pw.data.any Char.isLower = true ∧
        pw.data.any Char.isDigit = true) := by
      intro hc
      simp [hc.1, hc.2.1, hc.2.2] at h3
    rcases Bool.eq_false_or_eq_true (pw.data.any Char.isUpper) with hu | hu
    · rcases Bool.eq_false_or_eq_true (pw.data.any Char.isLower) with hl | hl
      · rcases Bool.eq_false_or_eq_true (pw.data.any Char.isDigit) with hd | hd
        · exact absurd ⟨hu, hl, hd⟩ h3'
        · exact Or.inr (Or.inr (Or.inr (Or.inr hd)))
      · exact Or.inr (Or.inr (Or.inr (Or.inl hl)))
    · exact Or.inr (Or.inr (Or.inl hu))
  · refine iff_of_false (by simp) ?_
    intro hc
    rcases Bool.eq_false_or_eq_true (pw.data.any Char.isUpper) with hu | hu
    swap
    · exact absurd (by simp [hu]) h3
    rcases Bool.eq_false_or_eq_true (pw.data.any Char.isLower) with hl | hl
    swap
    · exact absurd (by simp [hl]) h3
    rcases Bool.eq_false_or_eq_true (pw.data.any Char.isDigit) with hd | hd
    swap
    · exact absurd (by simp [hd]) h3
    rcases hc with h | h | h | h | h
    · exact h1 h
    · exact h2 h
    · rw [hu] at h; cases h
    · rw [hl] at h; cases h
    · rw [hd] at h; cases h

/-! ## Claim theorems -/

/-- C1: for every user whose role is not admin, `has_permission(user,
permission_name)` is true iff a `RolePermission` row joins the user's
role to a `Permission` named `permission_name`; an admin user gets
`true` regardless of the catalog; in particular a non-admin role with
zero `RolePermission` rows is denied every permission. -/
theorem has_permission_spec (u : User) (pname : String) (db : Db) :
    (u.role = "admin" → has_permission u pname db = true) ∧
    (u.role ≠ "admin" →
      (has_permission u pname db = true ↔
        ∃ p ∈ db.permissions, p.name = pname ∧
          ∃ rp ∈ db.role_permissions, rp.role = u.role ∧ rp.permission_id = p.id)) ∧
    (u.role ≠ "admin" → db.role_permissions = [] →
      has_permission u pname db = false) := by
  refine ⟨fun h => by simp [has_permission, h], fun h => ?_, fun h h2 => ?_⟩
  · simp only [has_permission, if_neg h, List.any_eq_true, Bool.and_eq_true,
      beq_iff_eq]
  · simp [has_permission, if_neg h, h2]

/-- Witness for C1: a patient-role user holds exactly the catalogued
permission. -/
theorem has_permission_spec_witness :
    ("patient" : String) ≠ "admin" ∧
    has_permission
      { id := 2, username := "pat", email := "pat@example.com",
        hashed_password := Sum.inr "h", role := "patient", created_at := 0 }
      "appointments.view_own"
      { users := [], permissions := [⟨7, "appointments.view_own", "appointments", "view"⟩],
        role_permissions := [⟨"patient", 7⟩], appointments := [] } = true := by
  constructor
  · decide
  · exact ((has_permission_spec
      { id := 2, username := "pat", email := "pat@example.com",
        hashed_password := Sum.inr "h", role := "patient", created_at := 0 }
      "appointments.view_own"
      { users := [], permissions := [⟨7, "appointments.view_own", "appointments", "view"⟩],
        role_permissions := [⟨"patient", 7⟩], appointments := [] }).2.1
      (by decide)).mpr
      ⟨⟨7, "appointments.view_own", "appointments", "view"⟩, by simp, rfl,
        ⟨"patient", 7⟩, by simp, rfl, rfl⟩

/-- C2: `can_access_appointment(user, appointment_id)` is true exactly
when the appointment exists and the user is admin, the patient
(`appointment.user_id`) or the assigned provider
(`appointment.therapist_id`); it is false for everyone — admin
included — when no appointment with that id exists; and it never
consults the permission catalog. -/
theorem can_access_appointment_spec (u : User) (aid : Nat) (db : Db) :
    (can_access_appointment u aid db = true ↔
      ∃ a, db.appointments.find? (fun x => x.id == aid) = some a ∧
        (u.role = "admin" ∨ a.user_id = u.id ∨ a.therapist_id = u.id)) ∧
    (db.appointments.find? (fun x => x.id == aid) = none →
      can_access_appointment u aid db = false) ∧
    (∀ perms rps,
      can_access_appointment u aid
        { db with permissions := perms, role_permissions := rps } =
      can_access_appointment u aid db) := by
  refine ⟨?_, ?_, ?_⟩
  · unfold can_access_appointment
    cases hfind : db.appointments.find? (fun x => x.id == aid) with
    | none => simp [hfind]
    | some a =>
      simp only [hfind, Option.some.injEq]
      constructor
      · intro h
        refine ⟨a, rfl, ?_⟩
        by_cases hadm : u.role = "admin"
        · exact Or.inl hadm
        · rw [if_neg hadm] at h
          by_cases hown : (a.user_id == u.id || a.therapist_id == u.id) = true
          · rcases Bool.or_eq_true_iff.mp hown with h1 | h1
            · exact Or.inr (Or.inl (beq_iff_eq.mp h1))
            · exact Or.inr (Or.inr (beq_iff_eq.mp h1))
          · rw [if_neg hown] at h
            cases h
      · rintro ⟨b, hb, hcase⟩
        obtain rfl : a = b := hb
        rcases hcase with h | h | h
        · simp [h]
        · simp [h]
        · simp [h]
  · intro hfind
    unfold can_access_appointment
    simp [hfind]
  · intro perms rps
    unfold can_access_appointment
    rfl

/-- Witness for C2: the empty database denies everyone, admins
included. -/
theorem can_access_appointment_spec_witness :
    (({ users := [], permissions := [], role_permissions := [],
        appointments := [] } : Db).appointments.find? (fun x => x.id == 5) = none) ∧
    can_access_appointment
      { id := 1, username := "root", email := "root@example.com",
        hashed_password := Sum.inr "h", role := "admin", created_at := 0 } 5
      { users := [], permissions := [], role_permissions := [],
        appointments := [] } = false := by
  constructor
  · rfl
  · exact (can_access_appointment_spec
      { id := 1, username := "root", email := "root@example.com",
        hashed_password := Sum.inr "h", role := "admin", created_at := 0 } 5
      { users := [], permissions := [], role_permissions := [],
        appointments := [] }).2.1 rfl

/-- C3: for a password whose UTF-8 encoding is at most 72 bytes,
`verify_password(p, get_password_hash(p))` holds; for any byte string,
hashing and verifying depend only on the 72-byte prefix: `hash(p)`
equals `hash(p[:72])` and verification of `p` and of its 72-byte
prefix against the same stored hash agree. -/
theorem password_roundtrip_truncation (p : String) (salt : Nat)
    (pw : List Nat) (h : StoredHash) :
    ((encodeUtf8 p).length ≤ 72 →
      verify_password p (get_password_hash p salt) = true) ∧
    get_password_hash_bytes pw salt = get_password_hash_bytes (pw.take 72) salt ∧
    verify_password_bytes pw h = verify_password_bytes (pw.take 72) h := by
  have htt : ∀ l : List Nat, (l.take 72).take 72 = l.take 72 := fun l => by
    rw [List.take_take, min_self]
  refine ⟨fun _ => ?_, ?_, ?_⟩
  · simp [verify_password, get_password_hash, verify_password_bytes,
      get_password_hash_bytes, bcrypt_hashpw, bcrypt_checkpw]
  · simp only [get_password_hash_bytes, truncate72_eq_take, htt]
  · simp only [verify_password_bytes, truncate72_eq_take, htt]

/-- Witness for C3: a short password round-trips. -/
theorem password_roundtrip_truncation_witness :
    (encodeUtf8 "Passw0rd1").length ≤ 72 ∧
    verify_password "Passw0rd1" (get_password_hash "Passw0rd1" 0) = true :=
  ⟨by decide,
    (password_roundtrip_truncation "Passw0rd1" 0 [] (Sum.inr "")).1 (by decide)⟩

/-- C4 (failing input): the claim says a malformed username is rejected
as a validation error with no row created, but `register_user` tests
the truthiness of the `(bool, message)` pair `validate_username`
returns, so the rejection branch is unreachable: registering the
two-character username "ab" (which `validate_username` marks invalid)
against an empty user table succeeds and persists the row. -/
theorem register_user_username_check_bug :
    (validate_username "ab").1 = false ∧
    (register_user "ab" "ab@example.com" "Passw0rd1" "patient" 1 0 0
        { users := [], permissions := [], role_permissions := [],
          appointments := [] }).1 =
      Except.ok
        { id := 1, username := "ab", email := "ab@example.com",
          hashed_password := get_password_hash "Passw0rd1" 0,
          role := "patient", created_at := 0 } ∧
    (register_user "ab" "ab@example.com" "Passw0rd1" "patient" 1 0 0
        { users := [], permissions := [], role_permissions := [],
          appointments := [] }).2.users =
      [{ id := 1, username := "ab", email := "ab@example.com",
         hashed_password := get_password_hash "Passw0rd1" 0,
         role := "patient", created_at := 0 }] :=
  ⟨by decide, rfl, rfl⟩

/-- C5: a token issued by `create_access_token` with a given expiry
instant is accepted by token resolution (`decode_access_token` followed
by the user lookup of `get_current_user`) at every time up to the
expiry instant — provided the subject names a stored user — and
rejected as `Unauthenticated` at every time strictly after it. -/
theorem get_current_user_expiry_spec (sub : String) (tIssue tNow : Nat)
    (delta : Option Nat) (db : Db) (u : User) :
    (db.users.find? (fun x => x.username == sub) = some u →
      tNow ≤ (create_access_token (some sub) tIssue delta).exp →
      get_current_user (create_access_token (some sub) tIssue delta) tNow db =
        Except.ok u) ∧
    ((create_access_token (some sub) tIssue delta).exp < tNow →
      get_current_user (create_access_token (some sub) tIssue delta) tNow db =
        Except.error ApiError.unauthenticated) := by
  constructor
  · intro hfind hle
    unfold get_current_user decode_access_token
    have hkey : (create_access_token (some sub) tIssue delta).key = SECRET_KEY := rfl
    have hsub : (create_access_token (some sub) tIssue delta).sub = some sub := rfl
    rw [if_neg (by rw [hkey]; exact fun hne => hne rfl),
        if_neg (by omega)]
    rw [hsub]
    simp [hfind]
  · intro hlt
    unfold get_current_user decode_access_token
    rw [if_neg (fun hne => hne rfl), if_pos hlt]

/-- Witness for C5: a token with expiry instant 1030 resolves at time
1000 to the stored user. -/
theorem get_current_user_expiry_spec_witness :
    ((⟨[⟨1, "alice", "alice@example.com", Sum.inr "h", "patient", 0⟩], [], [], []⟩ :
        Db).users.find? (fun x => x.username == "alice") =
      some ⟨1, "alice", "alice@example.com", Sum.inr "h", "patient", 0⟩) ∧
    1000 ≤ (create_access_token (some "alice") 1000 (some 30)).exp ∧
    get_current_user (create_access_token (some "alice") 1000 (some 30)) 1000
      ⟨[⟨1, "alice", "alice@example.com", Sum.inr "h", "patient", 0⟩], [], [], []⟩ =
      Except.ok ⟨1, "alice", "alice@example.com", Sum.inr "h", "patient", 0⟩ := by
  refine ⟨rfl, by decide, ?_⟩
  exact (get_current_user_expiry_spec "alice" 1000 1000 (some 30)
    ⟨[⟨1, "alice", "alice@example.com", Sum.inr "h", "patient", 0⟩], [], [], []⟩
    ⟨1, "alice", "alice@example.com", Sum.inr "h", "patient", 0⟩).1
    rfl (by decide)

/-- C6: a registration whose password breaks a strength rule (shorter
than 8, longer than 72, or missing an uppercase letter, a lowercase
letter, or a digit) raises a validation error and leaves the whole
session state — in particular the user table — unchanged. -/
theorem register_user_weak_password_spec (username email pw role : String)
    (newId salt now : Nat) (db : Db) :
    (pw.length < 8 ∨ 72 < pw.length ∨
      pw.data.any Char.isUpper = false ∨
      pw.data.any Char.isLower = false ∨
      pw.data.any Char.isDigit = false) →
    ∃ msg, register_user username email pw role newId salt now db =
      (Except.error (ApiError.validation msg), db) := by
  intro hweak
  have hv : (validate_password_strength pw).1 = false :=
    (validate_password_strength_false_iff pw).mpr hweak
  refine ⟨(validate_password_strength pw).2, ?_⟩
  unfold register_user
  simp [pyTruthyPair, hv]

/-- Witness for C6: registering with password "short" fails with a
validation error and creates no row. -/
theorem register_user_weak_password_spec_witness :
    ("short".length < 8 ∨ 72 < "short".length ∨
      "short".data.any Char.isUpper = false ∨
      "short".data.any Char.isLower = false ∨
      "short".data.any Char.isDigit = false) ∧
    ∃ msg, register_user "alice" "alice@example.com" "short" "patient" 1 0 0
        { users := [], permissions := [], role_permissions := [],
          appointments := [] } =
      (Except.error (ApiError.validation msg),
        { users := [], permissions := [], role_permissions := [],
          appointments := [] }) :=
  ⟨Or.inl (by decide),
    register_user_weak_password_spec "alice" "alice@example.com" "short"
      "patient" 1 0 0
      { users := [], permissions := [], role_permissions := [],
        appointments := [] } (Or.inl (by decide))⟩

/-- C7: when an appointment-creation request has calendar sync enabled
and the calendar collaborator raises on every input, the exception is
caught: `create_appointment` still succeeds, the appointment row is
appended to the table, and no external calendar event id is set. -/
theorem create_appointment_sync_failure_spec (req : AppointmentCreate)
    (u th : User) (err : CalendarEventData → String)
    (cal_create : CalendarEventData → Except String (Option String))
    (newId now : Nat) (db : Db) :
    db.users.find? (fun x => x.id == req.therapist_id && x.role == "therapist") =
      some th →
    req.sync_with_calendar = true →
    (∀ d, cal_create d = Except.error (err d)) →
    ∃ appt, create_appointment req u true cal_create newId now db =
        (Except.ok appt, { db with appointments := db.appointments ++ [appt] }) ∧
      appt.google_calendar_event_id = none ∧ appt.status = "scheduled" := by
  intro hth hsync hcal
  refine ⟨⟨newId, u.id, req.therapist_id, req.appointment_datetime,
      req.duration_minutes, "scheduled", req.notes, none,
      req.sync_with_calendar, none, req.appointment_type, req.location⟩,
    ?_, rfl, rfl⟩
  unfold create_appointment
  rw [hth]
  simp only [hsync, Bool.and_self, if_pos]
  rw [hcal]

/-- Witness for C7: a concrete request against a one-therapist table
with an always-raising collaborator. -/
theorem create_appointment_sync_failure_spec_witness :
    ((⟨[⟨3, "doc", "doc@example.com", Sum.inr "h", "therapist", 0⟩], [], [], []⟩ :
        Db).users.find?
      (fun x => x.id == (⟨3, 500, 60, "consultation", none, none, true⟩ :
          AppointmentCreate).therapist_id && x.role == "therapist") =
      some ⟨3, "doc", "doc@example.com", Sum.inr "h", "therapist", 0⟩) ∧
    (⟨3, 500, 60, "consultation", none, none, true⟩ :
      AppointmentCreate).sync_with_calendar = true ∧
    ∃ appt,
      create_appointment ⟨3, 500, 60, "consultation", none, none, true⟩
          ⟨2, "pat", "pat@example.com", Sum.inr "h", "patient", 0⟩ true
          (fun _ => Except.error "calendar API unreachable") 9 600
          ⟨[⟨3, "doc", "doc@example.com", Sum.inr "h", "therapist", 0⟩], [], [], []⟩ =
        (Except.ok appt,
          ⟨[⟨3, "doc", "doc@example.com", Sum.inr "h", "therapist", 0⟩], [], [],
            [appt]⟩) ∧
      appt.google_calendar_event_id = none ∧ appt.status = "scheduled" := by
  refine ⟨rfl, rfl, ?_⟩
  obtain ⟨appt, h1, h2, h3⟩ := create_appointment_sync_failure_spec
    ⟨3, 500, 60, "consultation", none, none, true⟩
    ⟨2, "pat", "pat@example.com", Sum.inr "h", "patient", 0⟩
    ⟨3, "doc", "doc@example.com", Sum.inr "h", "therapist", 0⟩
    (fun _ => "calendar API unreachable")
    (fun _ => Except.error "calendar API unreachable") 9 600
    ⟨[⟨3, "doc", "doc@example.com", Sum.inr "h", "therapist", 0⟩], [], [], []⟩
    rfl rfl (fun _ => rfl)
  exact ⟨appt, h1, h2, h3⟩

/-- C8: `verify_password` is total — it returns a boolean for every
input pair — and whenever the underlying `bcrypt.checkpw` comparison
raises (in particular on every malformed stored hash), the exception is
caught and `false` is returned, so no exception reaches the caller. -/
theorem verify_password_total_spec (plain : String) (h : StoredHash) :
    (∀ e, bcrypt_checkpw (truncate72 (encodeUtf8 plain)) h = Except.error e →
      verify_password plain h = false) ∧
    (∀ s, verify_password plain (Sum.inr s) = false) := by
  constructor
  · intro e he
    simp [verify_password, verify_password_bytes, he]
  · intro s
    simp [verify_password, verify_password_bytes, bcrypt_checkpw]

/-- Witness for C8: a malformed stored hash makes the comparison raise,
and verification returns false. -/
theorem verify_password_total_spec_witness :
    bcrypt_checkpw (truncate72 (encodeUtf8 "pw")) (Sum.inr "not-a-hash") =
      Except.error "Invalid salt" ∧
    verify_password "pw" (Sum.inr "not-a-hash") = false :=
  ⟨rfl, (verify_password_total_spec "pw" (Sum.inr "not-a-hash")).1
    "Invalid salt" rfl⟩

/-- C9: an authorized deletion (by the patient, the assigned provider,
or an admin) of an existing appointment does not remove the row: the
table keeps its length, the head and tail around the row are untouched,
the row's status becomes "cancelled", and every other field of the row
(patient reference, provider reference, scheduled datetime, duration,
notes, external calendar event id, and the rest) is unchanged. -/
theorem delete_appointment_cancel_spec (aid : Nat) (u : User) (db : Db)
    (a : Appointment) :
    db.appointments.find? (fun x => x.id == aid) = some a →
    (a.user_id = u.id ∨ a.therapist_id = u.id ∨ u.role = "admin") →
    (delete_appointment aid u db).1 = Except.ok "Appointment cancelled successfully" ∧
    (delete_appointment aid u db).2.users = db.users ∧
    (∃ l1 l2, db.appointments = l1 ++ a :: l2 ∧
      (delete_appointment aid u db).2.appointments =
        l1 ++ { a with status := "cancelled" } :: l2) ∧
    (delete_appointment aid u db).2.appointments.length = db.appointments.length ∧
    ({ a with status := "cancelled" } : Appointment).id = a.id ∧
    ({ a with status := "cancelled" } : Appointment).user_id = a.user_id ∧
    ({ a with status := "cancelled" } : Appointment).therapist_id = a.therapist_id ∧
    ({ a with status := "cancelled" } : Appointment).appointment_datetime =
      a.appointment_datetime ∧
    ({ a with status := "cancelled" } : Appointment).duration_minutes =
      a.duration_minutes ∧
    ({ a with status := "cancelled" } : Appointment).notes = a.notes ∧
    ({ a with status := "cancelled" } : Appointment).google_calendar_event_id =
      a.google_calendar_event_id ∧
    ({ a with status := "cancelled" } : Appointment).sync_with_calendar =
      a.sync_with_calendar ∧
    ({ a with status := "cancelled" } : Appointment).last_calendar_sync =
      a.last_calendar_sync ∧
    ({ a with status := "cancelled" } : Appointment).appointment_type =
      a.appointment_type ∧
    ({ a with status := "cancelled" } : Appointment).location = a.location := by
  intro hfind hauth
  have hguard : (a.user_id != u.id && a.therapist_id != u.id &&
      u.role != "admin") = false := by
    rcases hauth with h | h | h <;> simp [h]
  have hres : delete_appointment aid u db =
      (Except.ok "Appointment cancelled successfully",
        { db with appointments :=
            (replaceFirst (fun x => x.id == aid)
              (fun x => { x with status := "cancelled" }) db.appointments) }) := by
    unfold delete_appointment
    rw [hfind]
    simp [hguard]
  obtain ⟨l1, l2, hsplit, hrep⟩ :=
    replaceFirst_of_find? (fun x => x.id == aid)
      (fun x => { x with status := "cancelled" }) db.appointments a hfind
  refine ⟨by rw [hres], by rw [hres], ⟨l1, l2, hsplit, by rw [hres]; exact hrep⟩,
    ?_, rfl, rfl, rfl, rfl, rfl, rfl, rfl, rfl, rfl, rfl, rfl⟩
  rw [hres]
  show (replaceFirst (fun x => x.id == aid)
      (fun x => { x with status := "cancelled" }) db.appointments).length =
    db.appointments.length
  rw [hrep, hsplit]
  simp

/-- Witness for C9: the patient on a one-row appointment table cancels
their appointment. -/
theorem delete_appointment_cancel_spec_witness :
    ((⟨[], [], [],
        [⟨9, 2, 3, 500, 60, "scheduled", none, none, true, none, "consultation",
          none⟩]⟩ : Db).appointments.find? (fun x => x.id == 9) =
      some ⟨9, 2, 3, 500, 60, "scheduled", none, none, true, none, "consultation",
        none⟩) ∧
    ((⟨9, 2, 3, 500, 60, "scheduled", none, none, true, none, "consultation",
        none⟩ : Appointment).user_id =
      (⟨2, "pat", "pat@example.com", Sum.inr "h", "patient", 0⟩ : User).id) ∧
    (delete_appointment 9
      ⟨2, "pat", "pat@example.com", Sum.inr "h", "patient", 0⟩
      ⟨[], [], [],
        [⟨9, 2, 3, 500, 60, "scheduled", none, none, true, none, "consultation",
          none⟩]⟩).1 = Except.ok "Appointment cancelled successfully" := by
  refine ⟨rfl, rfl, ?_⟩
  exact (delete_appointment_cancel_spec 9
    ⟨2, "pat", "pat@example.com", Sum.inr "h", "patient", 0⟩
    ⟨[], [], [],
      [⟨9, 2, 3, 500, 60, "scheduled", none, none, true, none, "consultation",
        none⟩]⟩
    ⟨9, 2, 3, 500, 60, "scheduled", none, none, true, none, "consultation",
      none⟩ rfl (Or.inl rfl)).1

/-- C10: an admin toggling the status of an existing other user with an
`is_active` value supplied gets a structured success payload reporting
the user enabled or disabled, yet the session state — every declared
column of every stored user row — is unchanged: the `User` model
declares no `is_active` column, so the assignment persists nothing. -/
theorem toggle_user_status_frame_spec (uid : Nat) (b : Bool) (cu : User)
    (db : Db) (target : User) :
    cu.role = "admin" →
    db.users.find? (fun x => x.id == uid) = some target →
    target.id ≠ cu.id →
    toggle_user_status uid (some b) cu db =
      (Except.ok
        ((if b then "User enabled successfully" else "User disabled successfully"),
          uid, b), db) ∧
    (toggle_user_status uid (some b) cu db).2.users = db.users := by
  intro hrole hfind hne
  have hmain : toggle_user_status uid (some b) cu db =
      (Except.ok
        ((if b then "User enabled successfully" else "User disabled successfully"),
          uid, b), db) := by
    unfold toggle_user_status
    rw [if_neg (fun hc => hc hrole), hfind]
    simp only [if_neg hne]
    cases b <;> rfl
  exact ⟨hmain, by rw [hmain]⟩

/-- Witness for C10: an admin disables user 2 and the stored rows are
untouched. -/
theorem toggle_user_status_frame_spec_witness :
    (({ id := 1, username := "root", email := "root@example.com",
        hashed_password := Sum.inr "h", role := "admin", created_at := 0 } :
        User).role = "admin") ∧
    ((⟨[⟨1, "root", "root@example.com", Sum.inr "h", "admin", 0⟩,
        ⟨2, "pat", "pat@example.com", Sum.inr "h", "patient", 0⟩], [], [], []⟩ :
        Db).users.find? (fun x => x.id == 2) =
      some ⟨2, "pat", "pat@example.com", Sum.inr "h", "patient", 0⟩) ∧
    toggle_user_status 2 (some false)
      ⟨1, "root", "root@example.com", Sum.inr "h", "admin", 0⟩
      ⟨[⟨1, "root", "root@example.com", Sum.inr "h", "admin", 0⟩,
        ⟨2, "pat", "pat@example.com", Sum.inr "h", "patient", 0⟩], [], [], []⟩ =
      (Except.ok ("User disabled successfully", 2, false),
        ⟨[⟨1, "root", "root@example.com", Sum.inr "h", "admin", 0⟩,
          ⟨2, "pat", "pat@example.com", Sum.inr "h", "patient", 0⟩], [], [], []⟩) := by
  refine ⟨rfl, rfl, ?_⟩
  exact (toggle_user_status_frame_spec 2 false
    ⟨1, "root", "root@example.com", Sum.inr "h", "admin", 0⟩
    ⟨[⟨1, "root", "root@example.com", Sum.inr "h", "admin", 0⟩,
      ⟨2, "pat", "pat@example.com", Sum.inr "h", "patient", 0⟩], [], [], []⟩
    ⟨2, "pat", "pat@example.com", Sum.inr "h", "patient", 0⟩
    rfl rfl (by decide)).1

end Mindlab
